import Mathlib

/-!
Verification of the `CTOAICode` facade from `src/cto_ai_code.py`.

The embedding translates the Python source directly:
* the process environment (`os.getenv`) is an abstract map `String → Option String`;
* Python truthiness of `Optional[str]` values (`None` and `""` are falsy) drives both
  the `api_key or os.getenv(...)` resolution and the `if not self.api_key` checks;
* `str.split('\n')` is embedded as a structurally recursive split on the character
  list, keeping empty segments exactly as Python does;
* f-strings are expanded into explicit concatenations of their literal pieces.
-/

/-- Abstract process environment, the embedding of `os.getenv`: a partial map from
variable names to values. -/
abbrev Env := String → Option String

/-- Python truthiness of an `Optional[str]` value: `None` and the empty string are
falsy, every other string is truthy. -/
def pyTruthyStr : Option String → Bool
  | none => false
  | some s => s != ""

/-- Python `a or b` on `Optional[str]` values: yields `a` when `a` is truthy,
otherwise `b`. -/
def pyOr (a b : Option String) : Option String :=
  if pyTruthyStr a then a else b

/-- Python `str.upper()` as applied to the provider name (ASCII upper-casing). -/
def pyUpper (s : String) : String := s.toUpper

/-- Name of the environment variable consulted for a provider, the embedding of the
f-string in `self.api_key = api_key or os.getenv(f"{provider.upper()}_API_KEY")`. -/
def envVarName (provider : String) : String := pyUpper provider ++ "_API_KEY"

/-- Core of Python `str.split(sep)` for a one-character separator, on the character
list: returns the first segment and the remaining segments.  Empty segments are kept,
so splitting the empty list yields one empty segment and a trailing separator yields a
trailing empty segment. -/
def pySplitCore (sep : Char) : List Char → List Char × List (List Char)
  | [] => ([], [])
  | c :: cs =>
    let r := pySplitCore sep cs
    if c = sep then ([], r.1 :: r.2) else (c :: r.1, r.2)

/-- Python `s.split(sep)` for a one-character separator: the list of separator-free
segments of `s`, empty segments included. -/
def pySplit (s : String) (sep : Char) : List String :=
  let r := pySplitCore sep s.data
  (r.1 :: r.2).map String.mk

/-- State of a `CTOAICode` facade after construction: the provider name and the
resolved API key (`none` when no key was resolved). -/
structure CTOAICode where
  provider : String
  api_key : Option String
  deriving DecidableEq

/-- Result of running `CTOAICode.__init__`: the constructed facade together with
whether the missing-credential warning was printed. -/
structure InitResult where
  assistant : CTOAICode
  warned : Bool
  deriving DecidableEq

/-- Embedding of `CTOAICode.__init__`: the key is the explicit `api_key` argument if
truthy, otherwise the value of the environment variable `<PROVIDER>_API_KEY`; the
warning is printed exactly when the resolved key is falsy. -/
def CTOAICode.init (api_key : Option String) (provider : String) (env : Env) :
    InitResult :=
  let key := pyOr api_key (env (envVarName provider))
  ⟨⟨provider, key⟩, !(pyTruthyStr key)⟩

/-- Embedding of `CTOAICode._mock_generate_code`: the f-string template with `language`
and `prompt` interpolated. -/
def CTOAICode._mock_generate_code (_self : CTOAICode) (prompt language : String) :
    String :=
  "# Generated " ++ language ++ " code for: " ++ prompt ++
  "\n\ndef example_function():\n    \"\"\"\n    This is a mock implementation.\n    In production, this would use an AI API to generate actual code.\n    \"\"\"\n    print(\"Hello from CTO AI Code!\")\n    return True\n"

/-- Review result dictionary returned by `review_code`, with its five fixed keys. -/
structure ReviewResult where
  status : String
  issues : List String
  suggestions : List String
  score : Nat
  summary : String
  deriving DecidableEq

/-- Embedding of `CTOAICode._mock_review_code`: a fixed dictionary, independent of
`code`. -/
def CTOAICode._mock_review_code (_self : CTOAICode) (_code : String) : ReviewResult :=
  ⟨"success", [],
   ["Consider adding more comments", "Add type hints for better code clarity"],
   85, "Code looks good overall. Minor improvements suggested."⟩

/-- Embedding of `CTOAICode._mock_explain_code`: `lines = len(code.split('\n'))`
embedded in the fixed template. -/
def CTOAICode._mock_explain_code (_self : CTOAICode) (code : String) : String :=
  let lines := (pySplit code '\n').length
  "Code Analysis:\n- This code has " ++ toString lines ++
  " lines\n- In production, this would provide detailed explanation using AI\n- Currently running in mock mode without API key\n"

/-- Embedding of `CTOAICode.generate_code`: both the keyless branch and the branch
with a key call the mock implementation. -/
def CTOAICode.generate_code (self : CTOAICode) (prompt language : String) : String :=
  if !(pyTruthyStr self.api_key) then self._mock_generate_code prompt language
  else self._mock_generate_code prompt language

/-- Embedding of `CTOAICode.review_code`: both branches call the mock implementation. -/
def CTOAICode.review_code (self : CTOAICode) (code : String) : ReviewResult :=
  if !(pyTruthyStr self.api_key) then self._mock_review_code code
  else self._mock_review_code code

/-- Embedding of `CTOAICode.explain_code`: both branches call the mock implementation. -/
def CTOAICode.explain_code (self : CTOAICode) (code : String) : String :=
  if !(pyTruthyStr self.api_key) then self._mock_explain_code code
  else self._mock_explain_code code

/-- Substring relation: `sub` occurs contiguously inside `s`. -/
def strContains (s sub : String) : Prop :=
  ∃ a b : List Char, s.data = a ++ sub.data ++ b

/-- Helper: `sub` occurs in `s` as soon as `s` splits as `a ++ sub ++ b`. -/
theorem strContains_of_eq (s a sub b : String) (h : s = a ++ sub ++ b) :
    strContains s sub := by
  subst h
  exact ⟨a.data, b.data, by simp [String.data_append, List.append_assoc]⟩

/-- C1: for every facade and every input string `code`, `review_code` returns the
fixed result with status `"success"`, score `85`, an empty issues list, exactly the
two fixed suggestion strings, and the fixed summary. -/
theorem review_code_fixed (self : CTOAICode) (code : String) :
    self.review_code code =
      ⟨"success", [],
       ["Consider adding more comments", "Add type hints for better code clarity"],
       85, "Code looks good overall. Minor improvements suggested."⟩ := by
  unfold CTOAICode.review_code
  exact ite_self _

/-- C2: `explain_code` embeds in its fixed template a line count equal to the number
of newline-separated segments of `code`; concretely that count is 1 for the empty
string, 2 for `"a\nb"`, and 3 for `"a\nb\n"`. -/
theorem explain_code_line_count (self : CTOAICode) (code : String) :
    self.explain_code code =
      "Code Analysis:\n- This code has " ++ toString ((pySplit code '\n').length) ++
      " lines\n- In production, this would provide detailed explanation using AI\n- Currently running in mock mode without API key\n"
    ∧ (pySplit "" '\n').length = 1
    ∧ (pySplit "a\nb" '\n').length = 2
    ∧ (pySplit "a\nb\n" '\n').length = 3 := by
  refine ⟨?_, by decide, by decide, by decide⟩
  unfold CTOAICode.explain_code
  exact ite_self _

/-- C3: `generate_code` is a pure function of its arguments (two calls with identical
arguments return identical strings) and its output contains both `prompt` and
`language` as substrings. -/
theorem generate_code_pure_and_contains (self : CTOAICode) (prompt language : String) :
    self.generate_code prompt language = self.generate_code prompt language
    ∧ strContains (self.generate_code prompt language) prompt
    ∧ strContains (self.generate_code prompt language) language := by
  have hg : self.generate_code prompt language =
      "# Generated " ++ language ++ " code for: " ++ prompt ++
      "\n\ndef example_function():\n    \"\"\"\n    This is a mock implementation.\n    In production, this would use an AI API to generate actual code.\n    \"\"\"\n    print(\"Hello from CTO AI Code!\")\n    return True\n" := by
    unfold CTOAICode.generate_code
    exact ite_self _
  refine ⟨rfl, ?_, ?_⟩
  · exact strContains_of_eq _ ("# Generated " ++ language ++ " code for: ") prompt _ hg
  · refine strContains_of_eq _ "# Generated " language
      (" code for: " ++ prompt ++
       "\n\ndef example_function():\n    \"\"\"\n    This is a mock implementation.\n    In production, this would use an AI API to generate actual code.\n    \"\"\"\n    print(\"Hello from CTO AI Code!\")\n    return True\n") ?_
    rw [hg]
    simp [String.append_assoc]

/-- C4: every operation is total: for every facade and all input strings, including
empty ones, `generate_code`, `review_code` and `explain_code` each return a value
(the embedding of each method is a total function, as the source uses only
non-raising primitives). -/
theorem operations_never_raise (self : CTOAICode) (prompt language code : String) :
    (∃ s, self.generate_code prompt language = s)
    ∧ (∃ r, self.review_code code = r)
    ∧ (∃ s, self.explain_code code = s) :=
  ⟨⟨_, rfl⟩, ⟨_, rfl⟩, ⟨_, rfl⟩⟩

/-- C5: for every provider, constructing with no explicit key when the matching
environment variable is unset succeeds with `api_key = none`, emits the warning, and
every subsequent operation still returns the mock result. -/
theorem no_key_construction_succeeds (provider : String) (env : Env)
    (h : env (envVarName provider) = none) :
    (CTOAICode.init none provider env).assistant.api_key = none
    ∧ (CTOAICode.init none provider env).warned = true
    ∧ (∀ p l, (CTOAICode.init none provider env).assistant.generate_code p l =
        (CTOAICode.init none provider env).assistant._mock_generate_code p l)
    ∧ (∀ c, (CTOAICode.init none provider env).assistant.review_code c =
        (CTOAICode.init none provider env).assistant._mock_review_code c)
    ∧ (∀ c, (CTOAICode.init none provider env).assistant.explain_code c =
        (CTOAICode.init none provider env).assistant._mock_explain_code c) := by
  refine ⟨?_, ?_, ?_, ?_, ?_⟩
  · simp [CTOAICode.init, pyOr, pyTruthyStr, h]
  · simp [CTOAICode.init, pyOr, pyTruthyStr, h]
  · intro p l; unfold CTOAICode.generate_code; exact ite_self _
  · intro c; unfold CTOAICode.review_code; exact ite_self _
  · intro c; unfold CTOAICode.explain_code; exact ite_self _

/-- Witness for C5 at provider `"openai"` and the empty environment. -/
theorem no_key_construction_succeeds_witness :
    (CTOAICode.init none "openai" (fun _ => none)).assistant.api_key = none
    ∧ (CTOAICode.init none "openai" (fun _ => none)).warned = true
    ∧ (∀ p l, (CTOAICode.init none "openai" (fun _ => none)).assistant.generate_code p l =
        (CTOAICode.init none "openai" (fun _ => none)).assistant._mock_generate_code p l)
    ∧ (∀ c, (CTOAICode.init none "openai" (fun _ => none)).assistant.review_code c =
        (CTOAICode.init none "openai" (fun _ => none)).assistant._mock_review_code c)
    ∧ (∀ c, (CTOAICode.init none "openai" (fun _ => none)).assistant.explain_code c =
        (CTOAICode.init none "openai" (fun _ => none)).assistant._mock_explain_code c) :=
  no_key_construction_succeeds "openai" (fun _ => none) rfl

/-- C6: every operation returns exactly the corresponding mock result whatever key is
stored, so the observable behaviour with a key equals the observable behaviour
without one. -/
theorem mock_path_always (self : CTOAICode) (prompt language code : String) :
    self.generate_code prompt language = self._mock_generate_code prompt language
    ∧ self.review_code code = self._mock_review_code code
    ∧ self.explain_code code = self._mock_explain_code code
    ∧ self.generate_code prompt language =
        (CTOAICode.mk self.provider none).generate_code prompt language
    ∧ self.review_code code = (CTOAICode.mk self.provider none).review_code code
    ∧ self.explain_code code = (CTOAICode.mk self.provider none).explain_code code := by
  refine ⟨?_, ?_, ?_, ?_, ?_, ?_⟩ <;>
    simp [CTOAICode.generate_code, CTOAICode.review_code, CTOAICode.explain_code,
      CTOAICode._mock_generate_code, CTOAICode._mock_review_code,
      CTOAICode._mock_explain_code]

/-- C7: constructing with the explicit key `"abc123"` and provider `"openai"` never
consults the environment: the result is independent of the environment and its
`api_key` is `"abc123"`. -/
theorem explicit_key_ignores_env (env env2 : Env) :
    (CTOAICode.init (some "abc123") "openai" env).assistant.api_key = some "abc123"
    ∧ CTOAICode.init (some "abc123") "openai" env =
        CTOAICode.init (some "abc123") "openai" env2 :=
  ⟨rfl, rfl⟩

/-- C8: with no explicit key, the constructor resolves the key from exactly the
environment variable named by the upper-cased provider followed by `"_API_KEY"`, and
that value becomes the facade's `api_key`. -/
theorem env_resolution (provider : String) (env : Env) :
    envVarName provider = pyUpper provider ++ "_API_KEY"
    ∧ (CTOAICode.init none provider env).assistant.api_key = env (envVarName provider) :=
  ⟨rfl, rfl⟩

/-- C9: `review_code` is content-independent: on the same facade, any two input
strings produce equal review results. -/
theorem review_code_content_independent (self : CTOAICode) (code1 code2 : String) :
    self.review_code code1 = self.review_code code2 := rfl

/-- C10: an explicit empty-string key is treated as absent: the constructor falls
back to the environment lookup, and when the matching variable is also unset the
facade ends with `api_key = none` and the warning is emitted. -/
theorem empty_string_key_falls_back (provider : String) (env : Env) :
    (CTOAICode.init (some "") provider env).assistant.api_key = env (envVarName provider)
    ∧ (env (envVarName provider) = none →
        (CTOAICode.init (some "") provider env).assistant.api_key = none
        ∧ (CTOAICode.init (some "") provider env).warned = true) := by
  refine ⟨rfl, fun h => ⟨?_, ?_⟩⟩ <;>
    simp [CTOAICode.init, pyOr, pyTruthyStr, h]

/-- Witness for C10 at provider `"openai"` and the empty environment. -/
theorem empty_string_key_falls_back_witness :
    (CTOAICode.init (some "") "openai" (fun _ => none)).assistant.api_key =
      (fun _ => none : Env) (envVarName "openai")
    ∧ ((CTOAICode.init (some "") "openai" (fun _ => none)).assistant.api_key = none
       ∧ (CTOAICode.init (some "") "openai" (fun _ => none)).warned = true) :=
  ⟨(empty_string_key_falls_back "openai" (fun _ => none)).1,
   (empty_string_key_falls_back "openai" (fun _ => none)).2 rfl⟩
